import Mathlib

/-!
Verification development for the Tau-AI-Navigator transit application.

The definitions below are a shallow embedding of the repository code:
the static GTFS schedule index of src/etl_static.py (load_static_lookups)
and the realtime vehicle path of src/app.py (get_live_vehicles), together
with spec-modelled components (headsign resolution, semantic search) whose
implementation files are not part of the sources under inspection.
-/

namespace TauNav

/-- Transit mode enumeration, the value set of MODE_MAP in etl_static.py. -/
inductive Mode
  | TRAM
  | METRO
  | BUS
  | FERRY
  | TRAIN
deriving DecidableEq, Repr

/-- The fixed GTFS route-type code table MODE_MAP, etl_static.py lines 11-17. -/
def MODE_MAP : String → Option Mode
  | "0" => some Mode.TRAM
  | "900" => some Mode.TRAM
  | "1" => some Mode.METRO
  | "401" => some Mode.METRO
  | "3" => some Mode.BUS
  | "700" => some Mode.BUS
  | "4" => some Mode.FERRY
  | "1000" => some Mode.FERRY
  | "109" => some Mode.TRAIN
  | "100" => some Mode.TRAIN
  | _ => none

/-- Python str.replace("HSL:", "") on a character list: a single left-to-right
scan that removes every non-overlapping occurrence of the four characters
H, S, L, colon.  Used by etl_static.py lines 23, 45, 46 and app.py line 250. -/
def replaceHSL : List Char → List Char
  | 'H' :: 'S' :: 'L' :: ':' :: rest => replaceHSL rest
  | c :: rest => c :: replaceHSL rest
  | [] => []

/-- Whether the four characters H, S, L, colon occur contiguously in the list. -/
def containsHSL : List Char → Bool
  | 'H' :: 'S' :: 'L' :: ':' :: _ => true
  | _ :: rest => containsHSL rest
  | [] => false

/-- The ID normalization actually performed by the code:
someString.replace("HSL:", "") in Python. -/
def normalize_id (s : String) : String := ⟨replaceHSL s.data⟩

/-- Route-type resolution, etl_static.py lines 24-27:
r_type_code = str(row.get(route_type, three)) then MODE_MAP.get(code, BUS). -/
def mode_of (route_type : Option String) : Mode :=
  (MODE_MAP (route_type.getD "3")).getD Mode.BUS

/-- The per-route record stored in routes_dict, etl_static.py lines 29-33. -/
structure RouteInfo where
  short : String
  long : String
  mode : Mode
deriving DecidableEq, Repr

/-- One row of routes.txt as seen by the code.  A field is none when the
column is absent or the cell unreadable, in which case the Python row
access raises and the whole table degrades to empty. -/
structure RouteRow where
  route_id : Option String
  route_type : Option String
  route_short_name : Option String
  route_long_name : Option String

/-- One row of trips.txt as seen by the code. -/
structure TripRow where
  trip_id : Option String
  route_id : Option String
  direction_id : Option String
  trip_headsign : Option String

/-- Python dict assignment d[k] = v on a map represented as a function. -/
def pyUpdate {K V : Type} [DecidableEq K] (d : K → Option V) (k : K) (v : V) :
    K → Option V :=
  fun q => if q = k then some v else d q

/-- Processing of one routes.txt row, etl_static.py lines 22-33: any missing
required field raises (modelled as Except.error), otherwise the dict is
updated at the normalized route id. -/
def routesStep (d : String → Option RouteInfo) (row : RouteRow) :
    Except String (String → Option RouteInfo) :=
  match row.route_id, row.route_short_name, row.route_long_name with
  | some rid, some short, some long =>
      Except.ok (pyUpdate d (normalize_id rid) ⟨short, long, mode_of row.route_type⟩)
  | _, _, _ => Except.error "KeyError"

/-- The routes.txt scan of etl_static.py lines 20-33. -/
def buildRoutesDict (rows : List RouteRow) :
    Except String (String → Option RouteInfo) :=
  rows.foldlM routesStep (fun _ => none)

/-- Accumulator for the trips.txt scan: trip_lookup and direction_lookup. -/
abbrev TripAcc := (String → Option String) × (String × String → Option String)

/-- Processing of one trips.txt row, etl_static.py lines 44-51. -/
def tripsStep (acc : TripAcc) (row : TripRow) : Except String TripAcc :=
  match row.trip_id, row.route_id, row.direction_id, row.trip_headsign with
  | some tid, some rid, some did, some hs =>
      Except.ok (pyUpdate acc.1 (normalize_id tid) hs,
                 pyUpdate acc.2 (normalize_id rid, did) hs)
  | _, _, _, _ => Except.error "KeyError"

/-- The trips.txt scan of etl_static.py lines 40-53. -/
def buildTripLookups (rows : List TripRow) : Except String TripAcc :=
  rows.foldlM tripsStep ((fun _ => none), (fun _ => none))

/-- The routes half of load_static_lookups, etl_static.py lines 19-37:
a missing table (Except.error input, modelling a failed read_csv) or a
malformed row degrades to the empty dict. -/
def load_routes (table : Except String (List RouteRow)) :
    String → Option RouteInfo :=
  match table.bind buildRoutesDict with
  | Except.ok d => d
  | Except.error _ => fun _ => none

/-- The trips half of load_static_lookups, etl_static.py lines 39-57. -/
def load_trips (table : Except String (List TripRow)) : TripAcc :=
  match table.bind buildTripLookups with
  | Except.ok acc => acc
  | Except.error _ => ((fun _ => none), (fun _ => none))

/-- load_static_lookups, etl_static.py lines 6-59: returns
(routes_dict, trip_lookup, direction_lookup); each table is loaded
independently inside its own try block. -/
def load_static_lookups (routesTable : Except String (List RouteRow))
    (tripsTable : Except String (List TripRow)) :
    (String → Option RouteInfo) × TripAcc :=
  (load_routes routesTable, load_trips tripsTable)

/-- Surrounding-whitespace trimming on a character list. -/
def trimChars (l : List Char) : List Char :=
  ((l.dropWhile Char.isWhitespace).reverse.dropWhile Char.isWhitespace).reverse

/-- The normalization that the specification describes, for comparison with
normalize_id: strip the agency namespace from the front of the identifier
when it is there, then trim surrounding whitespace. -/
def claimNormalize (s : String) : String :=
  ⟨trimChars (if s.data.take 4 = ['H', 'S', 'L', ':'] then s.data.drop 4 else s.data)⟩

theorem containsHSL_cons_eq (c : Char) (rest : List Char)
    (h1 : ∀ r : List Char, c = 'H' → rest = 'S' :: 'L' :: ':' :: r → False) :
    containsHSL (c :: rest) = containsHSL rest := by
  rw [containsHSL.eq_def]
  split
  · next r heq =>
      cases heq
      exact (h1 r rfl rfl).elim
  · next x xs heq =>
      cases heq
      rfl
  · next heq => cases heq

theorem replaceHSL_of_not_contains :
    ∀ l : List Char, containsHSL l = false → replaceHSL l = l := by
  intro l
  induction l using replaceHSL.induct with
  | case1 rest ih => intro h; simp [containsHSL] at h
  | case2 c rest h1 ih =>
    intro h
    rw [containsHSL_cons_eq c rest (fun r hc hr => h1 r hc hr)] at h
    rw [replaceHSL.eq_def]
    split
    · next r heq =>
        cases heq
        exact (h1 r rfl rfl).elim
    · next x xs heq =>
        cases heq
        rw [ih h]
    · next heq => cases heq
  | case3 => intro h; rfl

/-- C3 counterexample: the code normalization removes the marker anywhere in
the identifier, not only at the front, and never trims whitespace, so it
disagrees with the claimed strip-front-and-trim operation on the identifier
AHSL:B, which carries no front marker and no surrounding whitespace, and on
the identifier 1001 followed by a space. -/
theorem normalize_id_not_strip_front_and_trim :
    normalize_id "AHSL:B" = "AB" ∧ claimNormalize "AHSL:B" = "AHSL:B" ∧
    ("AB" : String) ≠ "AHSL:B" ∧
    normalize_id "1001 " = "1001 " ∧ claimNormalize "1001 " = "1001" ∧
    ("1001 " : String) ≠ "1001" := by
  refine ⟨by decide, by decide, by decide, by decide, by decide, by decide⟩

/-- C3 (amended): ID normalization removes every left-to-right occurrence of
the four-character agency marker anywhere in the identifier and performs no
whitespace trimming: an identifier in which the marker does not occur at all
is returned completely unchanged, whitespace included, and an occurrence is
deleted no matter where it stands. -/
theorem normalize_id_amended :
    (∀ s : String, containsHSL s.data = false → normalize_id s = s)
    ∧ (∀ l : List Char,
        replaceHSL ('H' :: 'S' :: 'L' :: ':' :: l) = replaceHSL l) := by
  constructor
  · intro s h
    cases s with
    | mk data => exact congrArg String.mk (replaceHSL_of_not_contains data h)
  · intro l
    rfl

/-- C3 witness: a whitespace-carrying identifier free of the marker passes
through normalization untouched. -/
theorem normalize_id_amended_witness : normalize_id " tram 4 " = " tram 4 " :=
  normalize_id_amended.1 " tram 4 " (by decide)

/-- C7: the route-type table is the fixed ten-entry map of etl_static.py and
every code outside it, as well as a missing route_type field, resolves to
BUS. -/
theorem mode_map_fixed_table_and_default :
    (MODE_MAP "0" = some Mode.TRAM ∧ MODE_MAP "900" = some Mode.TRAM ∧
     MODE_MAP "1" = some Mode.METRO ∧ MODE_MAP "401" = some Mode.METRO ∧
     MODE_MAP "3" = some Mode.BUS ∧ MODE_MAP "700" = some Mode.BUS ∧
     MODE_MAP "4" = some Mode.FERRY ∧ MODE_MAP "1000" = some Mode.FERRY ∧
     MODE_MAP "109" = some Mode.TRAIN ∧ MODE_MAP "100" = some Mode.TRAIN)
    ∧ (∀ c : String, MODE_MAP c = none → mode_of (some c) = Mode.BUS)
    ∧ mode_of none = Mode.BUS := by
  refine ⟨by decide, ?_, by decide⟩
  intro c h
  simp [mode_of, h]

/-- C7 witness: the unrecognized code 742 resolves to BUS. -/
theorem mode_map_default_witness : mode_of (some "742") = Mode.BUS :=
  mode_map_fixed_table_and_default.2.1 "742" (by decide)

theorem routesStep_err_of_missing (d : String → Option RouteInfo)
    (row : RouteRow) (h : row.route_id = none) :
    routesStep d row = Except.error "KeyError" := by
  rcases row with ⟨rid, rt, sn, ln⟩
  cases h
  rfl

theorem tripsStep_err_of_missing (acc : TripAcc) (row : TripRow)
    (h : row.trip_id = none) : tripsStep acc row = Except.error "KeyError" := by
  rcases row with ⟨tid, rid, did, hs⟩
  cases h
  rfl

theorem routes_scan_fails_on_bad_row (row : RouteRow) (h : row.route_id = none)
    (rows2 : List RouteRow) :
    ∀ (rows1 : List RouteRow) (d0 d : String → Option RouteInfo),
      (rows1 ++ row :: rows2).foldlM routesStep d0 = Except.ok d → False := by
  intro rows1
  induction rows1 with
  | nil =>
    intro d0 d hcontr
    rw [List.nil_append, List.foldlM_cons, routesStep_err_of_missing d0 row h]
      at hcontr
    exact Except.noConfusion hcontr
  | cons r rows1 ih =>
    intro d0 d hcontr
    rw [List.cons_append, List.foldlM_cons] at hcontr
    cases hs : routesStep d0 r with
    | error e => rw [hs] at hcontr; exact Except.noConfusion hcontr
    | ok d1 =>
      rw [hs] at hcontr
      exact ih d1 d hcontr

theorem trips_scan_fails_on_bad_row (row : TripRow) (h : row.trip_id = none)
    (rows2 : List TripRow) :
    ∀ (rows1 : List TripRow) (a0 a : TripAcc),
      (rows1 ++ row :: rows2).foldlM tripsStep a0 = Except.ok a → False := by
  intro rows1
  induction rows1 with
  | nil =>
    intro a0 a hcontr
    rw [List.nil_append, List.foldlM_cons, tripsStep_err_of_missing a0 row h]
      at hcontr
    exact Except.noConfusion hcontr
  | cons r rows1 ih =>
    intro a0 a hcontr
    rw [List.cons_append, List.foldlM_cons] at hcontr
    cases hs : tripsStep a0 r with
    | error e => rw [hs] at hcontr; exact Except.noConfusion hcontr
    | ok a1 =>
      rw [hs] at hcontr
      exact ih a1 a hcontr

/-- C6: a missing source table (a failed read, the error input) and a
malformed row (a required column absent) both degrade to an empty lookup
structure for that table only: the whole load still succeeds and the other
table is loaded exactly as it would have been on its own. -/
theorem static_tables_degrade_to_empty :
    (∀ (e : String) (tt : Except String (List TripRow)),
      load_static_lookups (Except.error e) tt =
        ((fun _ => none : String → Option RouteInfo), load_trips tt))
    ∧ (∀ (rt : Except String (List RouteRow)) (e : String),
      load_static_lookups rt (Except.error e) =
        (load_routes rt, (fun _ => none : String → Option String),
         (fun _ => none : String × String → Option String)))
    ∧ (∀ (rows1 rows2 : List RouteRow) (row : RouteRow),
      row.route_id = none →
        load_routes (Except.ok (rows1 ++ row :: rows2)) =
          (fun _ => none : String → Option RouteInfo))
    ∧ (∀ (rows1 rows2 : List TripRow) (row : TripRow),
      row.trip_id = none →
        load_trips (Except.ok (rows1 ++ row :: rows2)) =
          ((fun _ => none : String → Option String),
           (fun _ => none : String × String → Option String))) := by
  refine ⟨fun e tt => rfl, fun rt e => rfl, ?_, ?_⟩
  · intro rows1 rows2 row h
    show (match buildRoutesDict (rows1 ++ row :: rows2) with
          | Except.ok d => d
          | Except.error _ => fun _ => none) =
        (fun _ => none : String → Option RouteInfo)
    cases heq : buildRoutesDict (rows1 ++ row :: rows2) with
    | ok d => exact (routes_scan_fails_on_bad_row row h rows2 rows1 _ d heq).elim
    | error e => rfl
  · intro rows1 rows2 row h
    show (match buildTripLookups (rows1 ++ row :: rows2) with
          | Except.ok acc => acc
          | Except.error _ => ((fun _ => none), (fun _ => none))) =
        ((fun _ => none : String → Option String),
         (fun _ => none : String × String → Option String))
    cases heq : buildTripLookups (rows1 ++ row :: rows2) with
    | ok acc => exact (trips_scan_fails_on_bad_row row h rows2 rows1 _ acc heq).elim
    | error e => rfl

/-- C6 witness: a trips table whose single row lacks the trip_id column
loads as the empty pair of lookups, while the routes table next to it is
untouched. -/
theorem static_tables_degrade_witness :
    load_trips (Except.ok [TripRow.mk none (some "1001") (some "0") (some "X")]) =
      ((fun _ => none : String → Option String),
       (fun _ => none : String × String → Option String)) :=
  static_tables_degrade_to_empty.2.2.2 [] []
    (TripRow.mk none (some "1001") (some "0") (some "X")) rfl

/-- The route entry one routes.txt record contributes at a given key. -/
def rowRouteEntry (row : RouteRow) (k : String) : Option RouteInfo :=
  match row.route_id, row.route_short_name, row.route_long_name with
  | some rid, some short, some long =>
      if normalize_id rid = k then some ⟨short, long, mode_of row.route_type⟩
      else none
  | _, _, _ => none

/-- Reading of the routes table in which the last record carrying a key
wins: the scan keeps overwriting the accumulator. -/
def lastWriteRoutes (rows : List RouteRow) (k : String) : Option RouteInfo :=
  rows.foldl (fun acc row => (rowRouteEntry row k).or acc) none

/-- The direction entry one trips.txt record contributes at a given key. -/
def rowDirectionEntry (row : TripRow) (key : String × String) : Option String :=
  match row.trip_id, row.route_id, row.direction_id, row.trip_headsign with
  | some _, some rid, some did, some hs =>
      if (normalize_id rid, did) = key then some hs else none
  | _, _, _, _ => none

/-- Last-record-wins reading of the direction half of the trips table. -/
def lastWriteDirection (rows : List TripRow) (key : String × String) :
    Option String :=
  rows.foldl (fun acc row => (rowDirectionEntry row key).or acc) none

theorem buildRoutes_go (rows : List RouteRow) :
    ∀ (d0 d : String → Option RouteInfo),
      rows.foldlM routesStep d0 = Except.ok d →
      ∀ k, d k =
        rows.foldl (fun acc row => (rowRouteEntry row k).or acc) (d0 k) := by
  induction rows with
  | nil =>
    intro d0 d h k
    simp only [List.foldlM_nil] at h
    cases h
    rfl
  | cons r rest ih =>
    intro d0 d h k
    rw [List.foldlM_cons] at h
    cases hs : routesStep d0 r with
    | error e => rw [hs] at h; exact Except.noConfusion h
    | ok d1 =>
      rw [hs] at h
      replace h : rest.foldlM routesStep d1 = Except.ok d := h
      have hd1 : d1 k = (rowRouteEntry r k).or (d0 k) := by
        rcases r with ⟨rid, rt, sn, ln⟩
        cases rid with
        | none => simp [routesStep] at hs
        | some rid =>
          cases sn with
          | none => simp [routesStep] at hs
          | some sn =>
            cases ln with
            | none => simp [routesStep] at hs
            | some ln =>
              simp only [routesStep, Except.ok.injEq] at hs
              subst hs
              simp only [pyUpdate, rowRouteEntry]
              by_cases hk : k = normalize_id rid
              · subst hk; simp
              · have hne : normalize_id rid ≠ k := fun hh => hk hh.symm
                simp [hk, hne]
      rw [List.foldl_cons, ← hd1]
      exact ih d1 d h k

theorem buildTrips_go (rows : List TripRow) :
    ∀ (a0 a : TripAcc), rows.foldlM tripsStep a0 = Except.ok a →
      ∀ key, a.2 key =
        rows.foldl (fun acc row => (rowDirectionEntry row key).or acc)
          (a0.2 key) := by
  induction rows with
  | nil =>
    intro a0 a h key
    simp only [List.foldlM_nil] at h
    cases h
    rfl
  | cons r rest ih =>
    intro a0 a h key
    rw [List.foldlM_cons] at h
    cases hs : tripsStep a0 r with
    | error e => rw [hs] at h; exact Except.noConfusion h
    | ok a1 =>
      rw [hs] at h
      replace h : rest.foldlM tripsStep a1 = Except.ok a := h
      have ha1 : a1.2 key = (rowDirectionEntry r key).or (a0.2 key) := by
        rcases r with ⟨tid, rid, did, hsg⟩
        cases tid with
        | none => simp [tripsStep] at hs
        | some tid =>
          cases rid with
          | none => simp [tripsStep] at hs
          | some rid =>
            cases did with
            | none => simp [tripsStep] at hs
            | some did =>
              cases hsg with
              | none => simp [tripsStep] at hs
              | some hsg =>
                simp only [tripsStep, Except.ok.injEq] at hs
                subst hs
                simp only [pyUpdate, rowDirectionEntry]
                by_cases hk : key = (normalize_id rid, did)
                · subst hk; simp
                · have hne : (normalize_id rid, did) ≠ key :=
                    fun hh => hk hh.symm
                  simp [hk, hne]
      rw [List.foldl_cons, ← ha1]
      exact ih a1 a h key

/-- C8: when a built table contains duplicate keys, the built maps hold the
value from the last record scanned: the routes dict agrees with the
last-record-wins reading at every key, and so does the direction lookup. -/
theorem built_maps_last_write_wins :
    (∀ (rows : List RouteRow) (d : String → Option RouteInfo),
      buildRoutesDict rows = Except.ok d → ∀ k, d k = lastWriteRoutes rows k)
    ∧ (∀ (rows : List TripRow) (acc : TripAcc),
      buildTripLookups rows = Except.ok acc →
      ∀ key, acc.2 key = lastWriteDirection rows key) := by
  constructor
  · intro rows d h k
    exact buildRoutes_go rows (fun _ => none) d h k
  · intro rows acc h key
    exact buildTrips_go rows ((fun _ => none), (fun _ => none)) acc h key

/-- Lookup in the routes dict produced by a successful routes.txt scan. -/
def lookupBuiltRoute (rows : List RouteRow) (k : String) : Option RouteInfo :=
  match buildRoutesDict rows with
  | Except.ok d => d k
  | Except.error _ => none

/-- Lookup in the direction map produced by a successful trips.txt scan. -/
def lookupBuiltDirection (rows : List TripRow) (key : String × String) :
    Option String :=
  match buildTripLookups rows with
  | Except.ok acc => acc.2 key
  | Except.error _ => none

/-- A routes table with two records for the same normalized route id. -/
def demoRouteRows : List RouteRow :=
  [RouteRow.mk (some "HSL:1001") (some "0") (some "A") (some "LA"),
   RouteRow.mk (some "1001") (some "0") (some "B") (some "LB")]

/-- A trips table with two records for the same (route, direction) key. -/
def demoTripRows : List TripRow :=
  [TripRow.mk (some "HSL:T1") (some "HSL:10") (some "0") (some "West"),
   TripRow.mk (some "HSL:T2") (some "10") (some "0") (some "East")]

/-- C8 witness: on concrete duplicated keys the built maps return the value
of the later record. -/
theorem built_maps_lww_witness :
    lookupBuiltRoute demoRouteRows "1001" =
      some (RouteInfo.mk "B" "LB" Mode.TRAM) ∧
    lookupBuiltDirection demoTripRows ("10", "0") = some "East" := by
  constructor
  · obtain ⟨d, hd⟩ : ∃ d, buildRoutesDict demoRouteRows = Except.ok d := ⟨_, rfl⟩
    have hval := built_maps_last_write_wins.1 demoRouteRows d hd "1001"
    show lookupBuiltRoute demoRouteRows "1001" =
      some (RouteInfo.mk "B" "LB" Mode.TRAM)
    unfold lookupBuiltRoute
    rw [hd]
    show d "1001" = some (RouteInfo.mk "B" "LB" Mode.TRAM)
    rw [hval]
    decide
  · obtain ⟨acc, ha⟩ : ∃ acc, buildTripLookups demoTripRows = Except.ok acc :=
      ⟨_, rfl⟩
    have hval := built_maps_last_write_wins.2 demoTripRows acc ha ("10", "0")
    show lookupBuiltDirection demoTripRows ("10", "0") = some "East"
    unfold lookupBuiltDirection
    rw [ha]
    show acc.2 ("10", "0") = some "East"
    rw [hval]
    decide

/-- Python dict insertion on an ordered association list: an existing key
keeps its position and takes the new value, a new key is appended. -/
def pyInsert {K V : Type} [BEq K] (d : List (K × V)) (k : K) (v : V) :
    List (K × V) :=
  if d.any (fun p => p.1 == k) then
    d.map (fun p => if p.1 == k then (k, v) else p)
  else d ++ [(k, v)]

/-- A latitude-longitude pair from the feed; an unset submessage reads as
the wire-format default, zero in both coordinates. -/
structure Position where
  latitude : ℚ
  longitude : ℚ
deriving DecidableEq, Repr

/-- The trip descriptor of a feed vehicle; an unset route_id reads as the
empty string. -/
structure TripDescriptor where
  route_id : String
deriving DecidableEq, Repr

/-- The vehicle descriptor of a feed vehicle, carrying its display label. -/
structure VehicleDescriptor where
  label : String
deriving DecidableEq, Repr

/-- A VehiclePosition payload: trip, optional position submessage, vehicle
descriptor. -/
structure VehiclePosition where
  trip : TripDescriptor
  position : Option Position
  vehicle : VehicleDescriptor
deriving DecidableEq, Repr

/-- One feed entity; the vehicle field is present exactly when the Python
entity.HasField check succeeds. -/
structure FeedEntity where
  vehicle : Option VehiclePosition
deriving DecidableEq, Repr

/-- The decoded realtime feed message. -/
structure FeedMessage where
  entity : List FeedEntity
deriving DecidableEq, Repr

/-- The color palette of app.py lines 102-108. -/
def get_route_color (route_short_name : String) : List Nat :=
  match route_short_name with
  | "1" => [255, 87, 34]
  | "2" => [76, 175, 80]
  | "3" => [33, 150, 243]
  | "4" => [255, 193, 7]
  | "5" => [156, 39, 176]
  | "6" => [233, 30, 99]
  | "7" => [0, 188, 212]
  | "8" => [63, 81, 181]
  | "9" => [205, 220, 57]
  | "10" => [121, 85, 72]
  | _ => [0, 223, 216]

/-- One row of the DataFrame built by get_live_vehicles, app.py 264-270. -/
structure VehicleOut where
  lat : ℚ
  lon : ℚ
  id : String
  route_name : String
  color : List Nat
deriving DecidableEq, Repr

/-- The targets_clean dict comprehension of app.py line 250: each key of the
route map is normalized, in iteration order. -/
def targets_clean (route_id_map : List (String × String)) :
    List (String × String) :=
  route_id_map.foldl (fun d p => pyInsert d (normalize_id p.1) p.2) []

/-- Whether the first list opens the second, character by character. -/
def startsWithB : List Char → List Char → Bool
  | [], _ => true
  | _ :: _, [] => false
  | a :: ra, b :: rb => a == b && startsWithB ra rb

/-- Python substring containment, the in operator on strings. -/
def substrB (needle : List Char) : List Char → Bool
  | [] => needle.isEmpty
  | c :: rest => startsWithB needle (c :: rest) || substrB needle rest

/-- The matching loop of app.py lines 256-261: nothing matches an empty raw
route id; otherwise the first target whose id is a substring of the raw id
supplies the short name. -/
def matched_name (targets : List (String × String)) (raw : String) :
    Option String :=
  if raw = "" then none
  else (targets.find? (fun p => substrB p.1.data raw.data)).map Prod.snd

/-- Processing of one feed entity, app.py lines 252-270: entities without a
vehicle are skipped, a falsy matched name (none, or the empty string) skips
the vehicle, and an absent position submessage reads as zero coordinates. -/
def vehicleOutOf (targets : List (String × String)) (e : FeedEntity) :
    Option VehicleOut :=
  match e.vehicle with
  | none => none
  | some v =>
    match matched_name targets v.trip.route_id with
    | none => none
    | some name =>
      if name = "" then none
      else
        some ⟨(v.position.getD ⟨0, 0⟩).latitude,
              (v.position.getD ⟨0, 0⟩).longitude,
              v.vehicle.label, name, get_route_color name⟩

/-- The vehicle list built from a decoded feed, app.py lines 249-271. -/
def process_feed (route_id_map : List (String × String)) (feed : FeedMessage) :
    List VehicleOut :=
  feed.entity.filterMap (vehicleOutOf (targets_clean route_id_map))

/-- get_live_vehicles, app.py lines 241-271: the fetch and parse of the
upstream feed is the Except argument; any timeout, network or parse error
lands in the bare except branch, which returns an empty DataFrame. -/
def get_live_vehicles (route_id_map : List (String × String))
    (fetched : Except Unit FeedMessage) : List VehicleOut :=
  match fetched with
  | Except.error _ => []
  | Except.ok feed => process_feed route_id_map feed

/-- One polling iteration as the UI loop runs it, app.py lines 388-440: the
snapshot shown is exactly the return of get_live_vehicles; the previous
snapshot is not consulted. -/
def tick (prev : List VehicleOut) (route_id_map : List (String × String))
    (fetched : Except Unit FeedMessage) : List VehicleOut :=
  get_live_vehicles route_id_map fetched

/-- C1 counterexample: a decoded vehicle entity, complete with position,
whose route id matches no target is dropped from the output entirely; no
record with a sentinel label is produced for it. -/
theorem unknown_route_vehicle_dropped :
    process_feed [("HSL:4", "4")]
      (FeedMessage.mk [FeedEntity.mk (some (VehiclePosition.mk
        (TripDescriptor.mk "9999") (some (Position.mk 60 24))
        (VehicleDescriptor.mk "v1")))]) = [] := by decide

/-- C1 (amended): get_live_vehicles performs no headsign resolution and
never emits a sentinel for unknown ids: a vehicle whose route id matches no
target is dropped from the snapshot, while a vehicle matched to a non-empty
short name always yields a record carrying that name, the vehicle label and
its coordinates (zero when the position submessage is absent). -/
theorem reconcile_amended :
    ∀ (rmap : List (String × String)) (v : VehiclePosition),
      (matched_name (targets_clean rmap) v.trip.route_id = none →
        vehicleOutOf (targets_clean rmap) (FeedEntity.mk (some v)) = none)
      ∧ (∀ nm, matched_name (targets_clean rmap) v.trip.route_id = some nm →
          nm ≠ "" →
          vehicleOutOf (targets_clean rmap) (FeedEntity.mk (some v)) =
            some (VehicleOut.mk (v.position.getD (Position.mk 0 0)).latitude
              (v.position.getD (Position.mk 0 0)).longitude
              v.vehicle.label nm (get_route_color nm))) := by
  intro rmap v
  constructor
  · intro h
    simp [vehicleOutOf, h]
  · intro nm h hne
    simp [vehicleOutOf, h, hne]

/-- C1 witness: a matched vehicle is emitted with its matched short name. -/
theorem reconcile_amended_witness :
    vehicleOutOf (targets_clean [("HSL:4", "4")])
      (FeedEntity.mk (some (VehiclePosition.mk (TripDescriptor.mk "HSL:1004B")
        (some (Position.mk 60 24)) (VehicleDescriptor.mk "v1")))) =
      some (VehicleOut.mk 60 24 "v1" "4" [255, 193, 7]) :=
  (reconcile_amended [("HSL:4", "4")]
    (VehiclePosition.mk (TripDescriptor.mk "HSL:1004B")
      (some (Position.mk 60 24)) (VehicleDescriptor.mk "v1"))).2
    "4" (by decide) (by decide)

/-- C4 counterexample: with a non-empty previous snapshot in hand, a failed
fetch makes the tick emit the empty snapshot, not the previous one. -/
theorem failed_tick_discards_previous_snapshot :
    tick [VehicleOut.mk 1 2 "veh7" "4" [255, 193, 7]] [("HSL:4", "4")]
      (Except.error ()) = [] ∧
    ([] : List VehicleOut) ≠ [VehicleOut.mk 1 2 "veh7" "4" [255, 193, 7]] :=
  ⟨rfl, by decide⟩

/-- C4 (amended): on a feed fetch timeout or network or parse error the
polling tick emits an empty vehicle list, whatever the previous snapshot
held: last-known-good data is replaced by an empty snapshot. -/
theorem failed_tick_emits_empty :
    ∀ (prev : List VehicleOut) (m : List (String × String)) (e : Unit),
      tick prev m (Except.error e) = [] :=
  fun _ _ _ => rfl

/-- C9 counterexample: an entity that declares a vehicle but carries no
position submessage is admitted anyway, with zero coordinates. -/
theorem vehicle_without_position_admitted :
    process_feed [("HSL:4", "4")]
      (FeedMessage.mk [FeedEntity.mk (some (VehiclePosition.mk
        (TripDescriptor.mk "4") none (VehicleDescriptor.mk "v1")))]) =
      [VehicleOut.mk 0 0 "v1" "4" [255, 193, 7]] := by decide

/-- C9 (amended): the decode filter admits exactly the entities that declare
a vehicle (and whose route id matches a target with a truthy name): an
entity without a vehicle is always excluded, while the presence of the
position submessage never affects admission; when it is absent the record
reads zero coordinates. -/
theorem decode_filter_amended :
    ∀ (targets : List (String × String)) (tr : TripDescriptor)
      (vd : VehicleDescriptor) (p : Position),
      vehicleOutOf targets (FeedEntity.mk none) = none
      ∧ ((vehicleOutOf targets
            (FeedEntity.mk (some (VehiclePosition.mk tr none vd)))).isSome ↔
         (vehicleOutOf targets
            (FeedEntity.mk (some (VehiclePosition.mk tr (some p) vd)))).isSome)
      ∧ (∀ out, vehicleOutOf targets
            (FeedEntity.mk (some (VehiclePosition.mk tr none vd))) = some out →
          out.lat = 0 ∧ out.lon = 0) := by
  intro targets tr vd p
  refine ⟨rfl, ?_, ?_⟩
  · cases h : matched_name targets tr.route_id with
    | none => simp [vehicleOutOf, h]
    | some name =>
      by_cases hne : name = "" <;> simp [vehicleOutOf, h, hne]
  · intro out hout
    cases h : matched_name targets tr.route_id with
    | none => simp [vehicleOutOf, h] at hout
    | some name =>
      by_cases hne : name = ""
      · simp [vehicleOutOf, h, hne] at hout
      · simp [vehicleOutOf, h, hne] at hout
        rw [← hout]
        exact ⟨rfl, rfl⟩

/-- C9 witness: the record admitted for a position-free entity reads zero
coordinates. -/
theorem decode_filter_amended_witness :
    (VehicleOut.mk 0 0 "v2" "4" [255, 193, 7]).lat = 0 ∧
    (VehicleOut.mk 0 0 "v2" "4" [255, 193, 7]).lon = 0 :=
  (decode_filter_amended (targets_clean [("HSL:4", "4")]) (TripDescriptor.mk "4")
    (VehicleDescriptor.mk "v2") (Position.mk 1 1)).2.2
    (VehicleOut.mk 0 0 "v2" "4" [255, 193, 7]) (by decide)

/-- C10 counterexample: the normalized target id 4 is a substring of the raw
route id 4, yet the vehicle is dropped because the configured short name is
the empty string, which the truthiness test of app.py line 262 rejects; so
substring containment alone does not decide inclusion. -/
theorem empty_short_name_vehicle_dropped :
    normalize_id "HSL:4" = "4" ∧
    substrB "4".data "4".data = true ∧
    process_feed [("HSL:4", "")]
      (FeedMessage.mk [FeedEntity.mk (some (VehiclePosition.mk
        (TripDescriptor.mk "4") (some (Position.mk 60 24))
        (VehicleDescriptor.mk "v1")))]) = [] := by
  refine ⟨by decide, by decide, by decide⟩

/-- C10 (amended): a feed vehicle that declares a vehicle payload is
included exactly when its raw route id is non-empty and the first entry of
the normalized target dict (in iteration order) whose id is a substring of
the raw id carries a non-empty short name; the emitted name is that first
matching entry's name, and a first match exists exactly when some
normalized target id is a substring of the raw id. -/
theorem substring_match_amended :
    ∀ (rmap : List (String × String)) (v : VehiclePosition),
      ((vehicleOutOf (targets_clean rmap) (FeedEntity.mk (some v))).isSome ↔
        (v.trip.route_id ≠ "" ∧
         ∃ q, (targets_clean rmap).find?
            (fun p => substrB p.1.data v.trip.route_id.data) = some q ∧
          q.2 ≠ ""))
      ∧ (∀ out,
          vehicleOutOf (targets_clean rmap) (FeedEntity.mk (some v)) =
            some out →
          ∃ q, (targets_clean rmap).find?
              (fun p => substrB p.1.data v.trip.route_id.data) = some q ∧
            out.route_name = q.2)
      ∧ ((∃ q ∈ targets_clean rmap,
            substrB q.1.data v.trip.route_id.data = true) ↔
          ((targets_clean rmap).find?
            (fun p => substrB p.1.data v.trip.route_id.data)).isSome) := by
  intro rmap v
  refine ⟨?_, ?_, ?_⟩
  · by_cases hraw : v.trip.route_id = ""
    · simp [vehicleOutOf, matched_name, hraw]
    · cases hf : (targets_clean rmap).find?
          (fun p => substrB p.1.data v.trip.route_id.data) with
      | none => simp [vehicleOutOf, matched_name, hraw, hf]
      | some q =>
        by_cases hq : q.2 = "" <;>
          simp [vehicleOutOf, matched_name, hraw, hf, hq]
  · intro out hout
    by_cases hraw : v.trip.route_id = ""
    · simp [vehicleOutOf, matched_name, hraw] at hout
    · cases hf : (targets_clean rmap).find?
          (fun p => substrB p.1.data v.trip.route_id.data) with
      | none => simp [vehicleOutOf, matched_name, hraw, hf] at hout
      | some q =>
        by_cases hq : q.2 = ""
        · simp [vehicleOutOf, matched_name, hraw, hf, hq] at hout
        · simp [vehicleOutOf, matched_name, hraw, hf, hq] at hout
          exact ⟨q, rfl, by rw [← hout]⟩
  · exact (List.find?_isSome).symm

/-- C10 witness: a vehicle whose raw id contains a normalized target id with
a non-empty short name is included. -/
theorem substring_match_amended_witness :
    (vehicleOutOf (targets_clean [("HSL:4", "4")])
      (FeedEntity.mk (some (VehiclePosition.mk (TripDescriptor.mk "1004")
        (some (Position.mk 60 24)) (VehicleDescriptor.mk "v3"))))).isSome =
      true :=
  (substring_match_amended [("HSL:4", "4")]
    (VehiclePosition.mk (TripDescriptor.mk "1004") (some (Position.mk 60 24))
      (VehicleDescriptor.mk "v3"))).1.mpr
    ⟨by decide, ("4", "4"), by decide, by decide⟩

/-- Modelled from the spec: the headsign resolver of the Vehicle Reconciler,
specification section 4.3, consuming the trip_lookup and direction_lookup
maps built by load_static_lookups.  The repository file implementing the
consumer of load_static_lookups is not among the sources, which contain
only the construction of the two maps: try the trip map first, fall back to
the route-direction map, else the literal label Unknown. -/
def resolve_headsign (trip_lookup : String → Option String)
    (direction_lookup : String × String → Option String)
    (t_id r_id d_id : String) : String :=
  match trip_lookup t_id with
  | some hs => hs
  | none =>
    match direction_lookup (r_id, d_id) with
    | some hs => hs
    | none => "Unknown"

/-- C2: headsign resolution order: a trip match always wins, the direction
match is consulted only when the trip map misses, the Unknown label appears
only when both miss, and whenever both maps hold disagreeing entries the
trip entry is the one returned. -/
theorem resolve_headsign_order :
    ∀ (tl : String → Option String) (dl : String × String → Option String)
      (t r d : String),
      (∀ h, tl t = some h → resolve_headsign tl dl t r d = h)
      ∧ (tl t = none → ∀ h, dl (r, d) = some h →
          resolve_headsign tl dl t r d = h)
      ∧ (tl t = none → dl (r, d) = none →
          resolve_headsign tl dl t r d = "Unknown")
      ∧ (∀ h1 h2, tl t = some h1 → dl (r, d) = some h2 → h1 ≠ h2 →
          resolve_headsign tl dl t r d = h1) := by
  intro tl dl t r d
  refine ⟨?_, ?_, ?_, ?_⟩
  · intro h hh
    simp [resolve_headsign, hh]
  · intro h1 h hh
    simp [resolve_headsign, h1, hh]
  · intro h1 h2
    simp [resolve_headsign, h1, h2]
  · intro h1 h2 hh1 hh2 hne
    simp [resolve_headsign, hh1]

/-- A trips table on which the trip map and the direction map disagree for
trip T1: the direction key (R1, 0) ends up holding the later record. -/
def demoHeadsignTrips : List TripRow :=
  [TripRow.mk (some "HSL:T1") (some "HSL:R1") (some "0") (some "TripWins"),
   TripRow.mk (some "HSL:T2") (some "HSL:R1") (some "0") (some "DirFallback")]

/-- C2 witness: over the maps actually built by the trips scan from a
concrete table, the disagreeing trip match wins, the direction match serves
an unknown trip, and a fully unknown input gets the Unknown label. -/
theorem resolve_headsign_order_witness :
    resolve_headsign (load_trips (Except.ok demoHeadsignTrips)).1
      (load_trips (Except.ok demoHeadsignTrips)).2 "T1" "R1" "0" =
      "TripWins" ∧
    resolve_headsign (load_trips (Except.ok demoHeadsignTrips)).1
      (load_trips (Except.ok demoHeadsignTrips)).2 "T9" "R1" "0" =
      "DirFallback" ∧
    resolve_headsign (load_trips (Except.ok demoHeadsignTrips)).1
      (load_trips (Except.ok demoHeadsignTrips)).2 "T9" "R9" "0" =
      "Unknown" :=
  ⟨(resolve_headsign_order (load_trips (Except.ok demoHeadsignTrips)).1
      (load_trips (Except.ok demoHeadsignTrips)).2 "T1" "R1" "0").2.2.2
      "TripWins" "DirFallback" (by decide) (by decide) (by decide),
   (resolve_headsign_order (load_trips (Except.ok demoHeadsignTrips)).1
      (load_trips (Except.ok demoHeadsignTrips)).2 "T9" "R1" "0").2.1
      (by decide) "DirFallback" (by decide),
   (resolve_headsign_order (load_trips (Except.ok demoHeadsignTrips)).1
      (load_trips (Except.ok demoHeadsignTrips)).2 "T9" "R9" "0").2.2.1
      (by decide) (by decide)⟩

/-- Modelled from the spec: a point of interest as the Semantic Search
Engine of specification sections 3 and 4.5 indexes it; the engine
implementation file is not among the sources. -/
structure PointOfInterest where
  name : String
  description : String
  lat : ℚ
  lon : ℚ
deriving DecidableEq, Repr

/-- Modelled from the spec: the search index, an embedding matrix parallel
to the POI array, with the invariant that row i belongs to POI i; the
embedding space is abstracted to rational vectors since embedding is
delegated to an external collaborator. -/
structure SearchIndex where
  pois : List PointOfInterest
  embeddings : List (List ℚ)
  parallel : pois.length = embeddings.length

/-- The number of indexed entries. -/
def indexSize (idx : SearchIndex) : Nat := idx.pois.length

/-- Modelled from the spec: FitIndex embeds every POI description with the
collaborator embedding function and stores the matrix beside the array. -/
def fitIndex (embed : String → List ℚ) (pois : List PointOfInterest) :
    SearchIndex :=
  ⟨pois, pois.map (fun p => embed p.description),
   (List.length_map pois (fun p => embed p.description)).symm⟩

/-- The similarity scores of every indexed POI against a query. -/
def scoreAll (sim : List ℚ → List ℚ → ℚ) (embed : String → List ℚ)
    (idx : SearchIndex) (q : String) : List (PointOfInterest × ℚ) :=
  (idx.pois.zip idx.embeddings).map (fun p => (p.1, sim (embed q) p.2))

/-- Non-increasing score order on scored entries. -/
def byScoreDesc : PointOfInterest × ℚ → PointOfInterest × ℚ → Prop :=
  fun a b => b.2 ≤ a.2

instance : DecidableRel byScoreDesc :=
  fun a b => inferInstanceAs (Decidable (b.2 ≤ a.2))

instance : IsTotal (PointOfInterest × ℚ) byScoreDesc :=
  ⟨fun a b => le_total b.2 a.2⟩

instance : IsTrans (PointOfInterest × ℚ) byScoreDesc :=
  ⟨fun _ _ _ hab hbc => le_trans hbc hab⟩

/-- Modelled from the spec: Search embeds the query with the same embedding
function, scores every indexed POI by the similarity function, sorts in
non-increasing score order with a stable sort, and returns the first topK
entries. -/
def search (sim : List ℚ → List ℚ → ℚ) (embed : String → List ℚ)
    (idx : SearchIndex) (q : String) (k : Nat) :
    List (PointOfInterest × ℚ) :=
  (List.insertionSort byScoreDesc (scoreAll sim embed idx q)).take k

theorem scoreAll_length (sim : List ℚ → List ℚ → ℚ) (embed : String → List ℚ)
    (idx : SearchIndex) (q : String) :
    (scoreAll sim embed idx q).length = indexSize idx := by
  simp [scoreAll, indexSize, List.length_zip, ← idx.parallel]

/-- C5: search results come in non-increasing score order, hold exactly
min(topK, index size) entries, are empty on an empty index, and a topK at
least the index size returns all scored entries. -/
theorem search_order_and_size :
    ∀ (sim : List ℚ → List ℚ → ℚ) (embed : String → List ℚ)
      (idx : SearchIndex) (q : String) (k : Nat), 1 ≤ k →
      List.Sorted byScoreDesc (search sim embed idx q k)
      ∧ (search sim embed idx q k).length = min k (indexSize idx)
      ∧ (indexSize idx = 0 → search sim embed idx q k = [])
      ∧ (indexSize idx ≤ k →
          (search sim embed idx q k).Perm (scoreAll sim embed idx q)) := by
  intro sim embed idx q k hk
  have hsortlen : (List.insertionSort byScoreDesc
      (scoreAll sim embed idx q)).length = indexSize idx :=
    (List.perm_insertionSort byScoreDesc
      (scoreAll sim embed idx q)).length_eq.trans
      (scoreAll_length sim embed idx q)
  refine ⟨?_, ?_, ?_, ?_⟩
  · exact List.Pairwise.sublist (List.take_sublist k _)
      (List.sorted_insertionSort byScoreDesc (scoreAll sim embed idx q))
  · rw [search, List.length_take, hsortlen]
  · intro h0
    have : (List.insertionSort byScoreDesc
        (scoreAll sim embed idx q)).length = 0 := by rw [hsortlen, h0]
    rw [search, List.length_eq_zero.mp this, List.take_nil]
  · intro hle
    rw [search, List.take_of_length_le (by rw [hsortlen]; exact hle)]
    exact List.perm_insertionSort byScoreDesc (scoreAll sim embed idx q)

/-- A concrete embedding collaborator for the witness. -/
def demoEmbed : String → List ℚ := fun s => [(s.length : ℚ)]

/-- A concrete similarity function for the witness. -/
def demoSim : List ℚ → List ℚ → ℚ := fun a b => a.headD 0 * b.headD 0

/-- Two concrete points of interest for the witness. -/
def demoPois : List PointOfInterest :=
  [PointOfInterest.mk "Cathedral" "historic dome" 60 24,
   PointOfInterest.mk "Sauna" "hot steam" 60 25]

/-- C5 witness: the search contract instantiated on a concrete two-entry
index with topK 5. -/
theorem search_order_and_size_witness :
    List.Sorted byScoreDesc
      (search demoSim demoEmbed (fitIndex demoEmbed demoPois) "steam" 5)
    ∧ (search demoSim demoEmbed (fitIndex demoEmbed demoPois) "steam"
        5).length = min 5 (indexSize (fitIndex demoEmbed demoPois))
    ∧ (indexSize (fitIndex demoEmbed demoPois) = 0 →
        search demoSim demoEmbed (fitIndex demoEmbed demoPois) "steam" 5 = [])
    ∧ (indexSize (fitIndex demoEmbed demoPois) ≤ 5 →
        (search demoSim demoEmbed (fitIndex demoEmbed demoPois) "steam"
          5).Perm
          (scoreAll demoSim demoEmbed (fitIndex demoEmbed demoPois)
            "steam")) :=
  search_order_and_size demoSim demoEmbed (fitIndex demoEmbed demoPois)
    "steam" 5 (by decide)

end TauNav
